import Mathlib

/-!
Shallow embedding of the nexora context backend retrieval pipeline
(`src/tools/internal/internal-tools/database-query.ts`,
`src/tools/internal/executor.ts`, `src/tools/context-finder.ts`).

External collaborators (OpenAI completions, Supabase RPCs, Weaviate
nearest-neighbour queries) are injected as explicit oracle arguments: each
oracle value denotes the outcome of the corresponding external call during
one request.  `Except String α` models a promise that either rejects with an
error message (`.error`) or resolves (`.ok`).
-/

namespace Nexora

/-- JavaScript runtime values, as far as the dynamically-typed parts of the
source manipulate them (parsed JSON, `params.query` accesses, spreads). -/
inductive JsValue where
  | jsUndefined : JsValue
  | null : JsValue
  | bool (b : Bool) : JsValue
  | num (q : ℚ) : JsValue
  | str (s : String) : JsValue
  | arr (l : List JsValue) : JsValue
  | obj (fields : List (String × JsValue)) : JsValue

/-- JavaScript falsiness: `undefined`, `null`, `false`, `0`, `""` are falsy. -/
def jsFalsy : JsValue → Bool
  | .jsUndefined => true
  | .null => true
  | .bool b => !b
  | .num q => q = 0
  | .str s => s = ""
  | .arr _ => false
  | .obj _ => false

/-- JavaScript `v || d`. -/
def jsOr (v d : JsValue) : JsValue := if jsFalsy v then d else v

/-- JavaScript `v || d` on a nullable string (`null`/`undefined` is `none`;
the empty string is also falsy). -/
def jsOrStr (v : Option String) (d : String) : String :=
  match v with
  | none => d
  | some s => if s = "" then d else s

/-- JavaScript spread `[...v]`: arrays spread to their elements, strings to
their characters, everything else throws a `TypeError`. -/
def jsSpread : JsValue → Except String (List JsValue)
  | .arr l => .ok l
  | .str s => .ok (s.toList.map fun c => .str c.toString)
  | _ => .error "value is not iterable"

/-- JavaScript property access `v[k]`: throws on `null`/`undefined`, yields
the field on objects (or `undefined` when absent), `undefined` otherwise. -/
def jsGet (v : JsValue) (k : String) : Except String JsValue :=
  match v with
  | .jsUndefined => .error ("Cannot read properties of undefined (reading " ++ k ++ ")")
  | .null => .error ("Cannot read properties of null (reading " ++ k ++ ")")
  | .obj fields => .ok ((fields.lookup k).getD .jsUndefined)
  | _ => .ok .jsUndefined

/-! ## Data model (`database-query.ts` interfaces) -/

/-- The `source` tag of a `SearchResult`. -/
inductive Source where
  | keyword : Source
  | knowledge_graph : Source
  | vector : Source
deriving DecidableEq

/-- `SearchResult` from `database-query.ts`. -/
structure SearchResult where
  source : Source
  content : String
  metadata : JsValue
  score : Option ℚ := none

/-- `EntityWithDocument` from `database-query.ts`. -/
structure EntityWithDocument where
  entity : String
  documentId : String

/-- Outcome of one Supabase `.rpc(...)` call: the promise either rejects
(`thrown`) or resolves to a `{ data, error }` pair, each nullable. -/
inductive Rpc (α : Type) where
  | thrown (msg : String) : Rpc α
  | res (err : Option String) (dat : Option α) : Rpc α

/-! ## Query expander (`DatabaseQueryTool.rephraseQuery`) -/

/-- `rephraseQuery`.  The argument models the joint outcome of the OpenAI
completion call, the `content || '[]'` defaulting and `JSON.parse`:
`.error` when the call rejected or the parse threw (both land in the
`catch`, which returns `[]`), `.ok j` when parsing succeeded with value
`j`.  The parsed value is returned as-is, without validation. -/
def rephraseQuery (resp : Except String JsValue) : JsValue :=
  match resp with
  | .error _ => .arr []
  | .ok j => j

/-! ## Keyword search adapter (`DatabaseQueryTool.keywordSearch`) -/

/-- One row returned by the `keyword_search_with_context` RPC. -/
structure KeywordRow where
  data_id : String
  context_text : Option String
  match_position : ℤ
  total_matches : ℤ

/-- `keywordSearch`: a thrown or errored RPC yields `[]`; otherwise each row
maps to a `keyword`-tagged `SearchResult`. -/
def keywordSearch (rpc : Rpc (List KeywordRow)) : List SearchResult :=
  match rpc with
  | .thrown _ => []
  | .res (some _) _ => []
  | .res none dat =>
    (dat.getD []).map fun item =>
      { source := .keyword
        content := item.context_text.getD ""
        metadata := .obj [("data_id", .str item.data_id),
                          ("match_position", .num item.match_position),
                          ("total_matches", .num item.total_matches)] }

/-! ## Confidence scorer (`Refiner.calculateConfidence`) -/

/-- The structured `data` payload of a successful `DatabaseQueryTool.execute`
response. -/
structure QueryData where
  results : List SearchResult
  queryVariations : List JsValue
  totalResults : ℕ
  sourcesKeyword : ℕ
  sourcesKnowledgeGraph : ℕ
  sourcesVector : ℕ

/-- `ToolResponse` returned by a tool's `execute`. -/
structure ToolResponse where
  success : Bool
  data : Option QueryData
  error : Option String

/-- `ToolResult` from `executor.ts` (the wall-clock `executionTime` field is
real time and is not modelled). -/
structure ToolResultE where
  tool : String
  success : Bool
  data : Option QueryData := none
  error : Option String := none

/-- `Refiner.calculateConfidence`.  JavaScript numbers are modelled as exact
rationals. -/
def calculateConfidence (results : List ToolResultE) : ℚ :=
  let successful := (results.filter fun r => r.success).length
  let total := results.length
  if total = 0 then 0
  else
    let successRate : ℚ := ((successful : ℚ) / (total : ℚ)) * 100
    if 3 ≤ successful then min 95 successRate
    else if successful = 2 then min 85 successRate
    else if successful = 1 then min 70 successRate
    else successRate

/-! ## Knowledge graph adapter
(`DatabaseQueryTool.extractEntitiesFromQuery`, `knowledgeGraphSearch`) -/

/-- `extractEntitiesFromQuery`.  The argument models the joint outcome of the
OpenAI completion call, the content defaulting and `JSON.parse` (`.error` =
the call or the parse threw, landing in the `catch`).  On success the code
reads `parsed.entities || []`; a property access that throws (parsed value
`null`) is also caught and yields `[]`. -/
def extractEntitiesFromQuery (resp : Except String JsValue) : JsValue :=
  match resp with
  | .error _ => .arr []
  | .ok j =>
    match jsGet j "entities" with
    | .error _ => .arr []
    | .ok v => if jsFalsy v then .arr [] else v

/-- One row returned by the `search_knowledge_entities` RPC. -/
structure EntityRow where
  entity_name : String
  entity_type : String
  entity_description : Option String
  data_id : String

/-- One row returned by the `search_knowledge_relationships` RPC. -/
structure RelRow where
  subject : String
  predicate : String
  obj : String
  data_id : String

/-- One row returned by the `get_related_entities` RPC. -/
structure RelatedRow where
  entity_name : String
  entity_type : String
  relationship_type : String
  data_id : String

/-- The three user-scoped Supabase RPCs the knowledge-graph adapter issues.
`search_knowledge_entities` receives the extracted entity value (which the
code never validates to be a string); the other two receive the matched
entity name and its source document id. -/
structure KGStore where
  searchEntities : JsValue → String → Rpc (List EntityRow)
  searchRelationships : String → String → String → Rpc (List RelRow)
  relatedEntities : String → String → String → Rpc (List RelatedRow)

/-- Result triple of `knowledgeGraphSearch`. -/
structure KGOutput where
  results : List SearchResult
  entities : List String
  entitiesWithDocuments : List EntityWithDocument

/-- Accumulator of the knowledge-graph loops, plus the log of store calls
issued (one entry per RPC invocation, in order). -/
structure KGAcc where
  results : List SearchResult
  entities : List String
  pairs : List EntityWithDocument
  calls : List String

/-- The `entity`-type `SearchResult` pushed for one matched entity row. -/
def entityResult (e : EntityRow) : SearchResult :=
  let n := e.entity_name
  let t := e.entity_type
  let d := jsOrStr e.entity_description "No description"
  { source := .knowledge_graph
    content := s!"Entity: {n} ({t}): {d}"
    metadata := .obj [("entity_name", .str n), ("entity_type", .str t),
                      ("data_id", .str e.data_id), ("type", .str "entity")] }

/-- The `relationship`-type `SearchResult` pushed for one relationship row. -/
def relResult (r : RelRow) : SearchResult :=
  let s := r.subject
  let p := r.predicate
  let o := r.obj
  { source := .knowledge_graph
    content := s!"Relationship: {s} → {p} → {o}"
    metadata := .obj [("relationship_source", .str s), ("relationship_target", .str o),
                      ("relationship_type", .str p), ("data_id", .str r.data_id),
                      ("type", .str "relationship")] }

/-- The `related_entity`-type `SearchResult` pushed for one co-located
entity row. -/
def relatedResult (r : RelatedRow) : SearchResult :=
  let n := r.entity_name
  let t := r.entity_type
  { source := .knowledge_graph
    content := s!"Related Entity: {n} ({t})"
    metadata := .obj [("entity_name", .str n), ("entity_type", .str t),
                      ("relationship_type", .str r.relationship_type),
                      ("data_id", .str r.data_id), ("type", .str "related_entity")] }

/-- Steps 3–5 of `knowledgeGraphSearch` for one matched entity row: push the
entity result, the entity name and the `(entity, documentId)` pair, then
fetch relationships and related entities.  Returns the updated accumulator
and `true` when one of the two RPCs threw: the surrounding per-extracted-
entity `try` then abandons the remaining rows (results already pushed to the
shared arrays survive). -/
def kgRow (store : KGStore) (uid : String) (acc : KGAcc) (e : EntityRow) :
    KGAcc × Bool :=
  let acc1 : KGAcc :=
    { results := acc.results ++ [entityResult e]
      entities := acc.entities ++ [e.entity_name]
      pairs := acc.pairs ++ [⟨e.entity_name, e.data_id⟩]
      calls := acc.calls ++ ["search_knowledge_relationships"] }
  match store.searchRelationships e.entity_name uid e.data_id with
  | .thrown _ => (acc1, true)
  | .res relErr relDat =>
    let acc2 : KGAcc :=
      match relErr, relDat with
      | none, some rels => { acc1 with results := acc1.results ++ rels.map relResult }
      | _, _ => acc1
    let acc3 : KGAcc := { acc2 with calls := acc2.calls ++ ["get_related_entities"] }
    match store.relatedEntities e.entity_name uid e.data_id with
    | .thrown _ => (acc3, true)
    | .res rerr rdat =>
      match rerr, rdat with
      | none, some rows => ({ acc3 with results := acc3.results ++ rows.map relatedResult }, false)
      | _, _ => (acc3, false)

/-- The inner `for (const entity of entityData || [])` loop: processes rows
sequentially and stops early when `kgRow` reports a throw. -/
def kgRows (store : KGStore) (uid : String) (acc : KGAcc) :
    List EntityRow → KGAcc
  | [] => acc
  | e :: rest =>
    match kgRow store uid acc e with
    | (acc1, true) => acc1
    | (acc1, false) => kgRows store uid acc1 rest

/-- Steps 2–5 of `knowledgeGraphSearch` for one extracted entity value: the
`search_knowledge_entities` RPC, then the per-row processing.  A thrown RPC
or a non-null `error` both leave the accumulator unchanged (`continue`). -/
def kgEntity (store : KGStore) (uid : String) (acc : KGAcc) (name : JsValue) :
    KGAcc :=
  let acc1 : KGAcc := { acc with calls := acc.calls ++ ["search_knowledge_entities"] }
  match store.searchEntities name uid with
  | .thrown _ => acc1
  | .res (some _) _ => acc1
  | .res none dat => kgRows store uid acc1 (dat.getD [])

/-- `knowledgeGraphSearch`, returning its result triple together with the
log of store calls issued.  With zero extracted entities the code returns
before the loop; a non-array extraction value makes line
`extractedEntities.join(', ')` throw a `TypeError`, which the outer `catch`
turns into the same empty triple. -/
def knowledgeGraphSearch (extractResp : Except String JsValue)
    (store : KGStore) (uid : String) : KGOutput × List String :=
  match extractEntitiesFromQuery extractResp with
  | .arr [] => (⟨[], [], []⟩, [])
  | .arr (e :: es) =>
    let acc := (e :: es).foldl (kgEntity store uid) ⟨[], [], [], []⟩
    (⟨acc.results, acc.entities, acc.pairs⟩, acc.calls)
  | _ => (⟨[], [], []⟩, [])

/-! ## Vector search adapters
(`DatabaseQueryTool.vectorSearch`, `searchEntitiesInVector`) -/

/-- One hit returned by a Weaviate nearest-neighbour query. -/
structure VecDoc where
  content : Option String
  document_id : String
  certainty : Option ℚ
  distance : Option ℚ

/-- Outcome of one Weaviate query: the promise rejects (`thrown`), or
resolves with `result.data?.Get?.[CLASS]` either absent (`ok none`) or a
list of hits. -/
inductive VecOutcome where
  | thrown (msg : String) : VecOutcome
  | ok (docs : Option (List VecDoc)) : VecOutcome

/-- The `vector`-tagged `SearchResult` built from one hit of `vectorSearch`
(`metadata.query` records the query value that produced it). -/
def vecResult (q : JsValue) (doc : VecDoc) : SearchResult :=
  { source := .vector
    content := doc.content.getD ""
    score := some ((doc.certainty.getD 0))
    metadata := .obj [("query", q), ("document_id", .str doc.document_id),
                      ("distance", match doc.distance with
                                   | some d => .num d
                                   | none => .jsUndefined)] }

/-- `vectorSearch`: one sequential tenant-scoped lookup per query value;
a per-query throw is caught and skipped. -/
def vectorSearch (vec : JsValue → String → VecOutcome) (uid : String)
    (queries : List JsValue) : List SearchResult :=
  queries.foldl
    (fun acc q =>
      match vec q uid with
      | .thrown _ => acc
      | .ok none => acc
      | .ok (some docs) => acc ++ docs.map (vecResult q))
    []

/-- The `vector`-tagged `SearchResult` built from one hit of
`searchEntitiesInVector`. -/
def entityVecResult (p : EntityWithDocument) (doc : VecDoc) : SearchResult :=
  { source := .vector
    content := doc.content.getD ""
    score := some ((doc.certainty.getD 0))
    metadata := .obj [("entity", .str p.entity), ("document_id", .str doc.document_id),
                      ("fromKnowledgeGraph", .bool true),
                      ("distance", match doc.distance with
                                   | some d => .num d
                                   | none => .jsUndefined)] }

/-- `searchEntitiesInVector`: immediately `[]` on an empty pair list,
otherwise one sequential document-filtered lookup per pair, per-pair throws
caught and skipped. -/
def searchEntitiesInVector (evec : EntityWithDocument → String → VecOutcome)
    (uid : String) (pairs : List EntityWithDocument) : List SearchResult :=
  match pairs with
  | [] => []
  | _ =>
    pairs.foldl
      (fun acc p =>
        match evec p uid with
        | .thrown _ => acc
        | .ok none => acc
        | .ok (some docs) => acc ++ docs.map (entityVecResult p))
      []

/-- The confidence formula exactly as the spec words it (§4.7), as a function
of `successes` and `total`; stated for comparison with
`calculateConfidence`. -/
def confidenceSpec (successes total : ℕ) : ℚ :=
  if total = 0 then 0
  else
    let successRate : ℚ := ((successes : ℚ) / (total : ℚ)) * 100
    if 3 ≤ successes then min 95 successRate
    else if successes = 2 then min 85 successRate
    else if successes = 1 then min 70 successRate
    else successRate

/-! ## Search coordinator (`DatabaseQueryTool.execute`) -/

/-- `DatabaseQueryTool.execute`, with every external call outcome injected:
`rephraseResp` and `extractResp` are the two LLM interactions, `kwRpc` the
keyword RPC, `store` the knowledge-graph RPCs, `vec`/`evec` the Weaviate
lookups.  A missing or empty `clerkUserId` throws, and the outer `catch`
converts any throw into a `success: false` response.  The spread
`[query, ...rephrased]` throws when the rephrase result is not iterable. -/
def execute (query : String) (clerkUserId : Option String)
    (rephraseResp : Except String JsValue)
    (kwRpc : String → String → Rpc (List KeywordRow))
    (extractResp : Except String JsValue) (store : KGStore)
    (vec : JsValue → String → VecOutcome)
    (evec : EntityWithDocument → String → VecOutcome) : ToolResponse :=
  let fail : String → ToolResponse := fun msg =>
    { success := false, data := none, error := some msg }
  match clerkUserId with
  | none => fail "clerk_user_id is required for database queries"
  | some uid =>
    if uid = "" then fail "clerk_user_id is required for database queries"
    else
      match jsSpread (rephraseQuery rephraseResp) with
      | .error msg => fail msg
      | .ok rephrased =>
        let allQueries := JsValue.str query :: rephrased
        let keywordResults := keywordSearch (kwRpc query uid)
        let kg := (knowledgeGraphSearch extractResp store uid).1
        let vectorResults := vectorSearch vec uid allQueries
        let entityVectorResults :=
          searchEntitiesInVector evec uid kg.entitiesWithDocuments
        let allResults :=
          keywordResults ++ kg.results ++ vectorResults ++ entityVectorResults
        { success := true
          data := some
            { results := allResults
              queryVariations := allQueries
              totalResults := allResults.length
              sourcesKeyword := keywordResults.length
              sourcesKnowledgeGraph := kg.results.length
              sourcesVector := vectorResults.length + entityVectorResults.length }
          error := none }

/-! ## Executor (`executor.ts`) -/

/-- `Tool` from `executor.ts` (`params` is untyped in the source). -/
structure ToolE where
  name : String
  params : JsValue
  priority : ℤ
  reason : String

/-- Execution strategy of a `ToolPlan`. -/
inductive Strategy where
  | parallel : Strategy
  | sequential : Strategy

/-- `ToolPlan` from `executor.ts`. -/
structure ToolPlanE where
  tools : List ToolE
  strategy : Strategy

/-- `Executor.executeTools`.  `registry` models `toolRegistry.getTool`; a
registered tool is the outcome function of its `execute(query, config)`
call, receiving the query value and `config.clerkUserId`.  The code reads
`tools[0]` before its `try` block, so an empty plan makes
`toolConfig.name` throw out of the method; inside the `try`, both the
`toolConfig.params.query` access and the tool call are caught and turned
into a single failed `ToolResult`. -/
def executeTools (plan : ToolPlanE) (clerkUserId : Option String)
    (registry : String → Option (JsValue → Option String → Except String ToolResponse)) :
    Except String (List ToolResultE) :=
  match plan.tools with
  | [] => .error "Cannot read properties of undefined (reading name)"
  | t :: _ =>
    match registry t.name with
    | none => .ok [{ tool := t.name, success := false,
                     error := some ("Tool not found: " ++ t.name) }]
    | some toolFn =>
      match jsGet t.params "query" with
      | .error msg => .ok [{ tool := t.name, success := false, error := some msg }]
      | .ok q =>
        match toolFn (jsOr q (.str "")) clerkUserId with
        | .error msg => .ok [{ tool := t.name, success := false, error := some msg }]
        | .ok resp => .ok [{ tool := t.name, success := resp.success,
                             data := resp.data, error := resp.error }]

/-! ## Answer synthesizer (`Refiner.refineResults`) -/

/-- `RefinedResponse` from the refiner. -/
structure RefinedResponse where
  content : String
  confidence : ℚ

/-- The fixed not-found answer of `refineResults`. -/
def notFoundMessage : String :=
  "I couldn't find the information needed to answer your query. Please try rephrasing."

/-- `Refiner.refineResults`.  `llm` is the outcome of the one synthesis
completion call (`.ok` carries the nullable `content`); the returned `ℕ`
counts how many LLM synthesis calls were made.  The synthesis call is not
wrapped in any `try` inside `refineResults`, so its rejection propagates. -/
def refineResults (query : String) (results : List ToolResultE)
    (llm : Except String (Option String)) : Except String (RefinedResponse × ℕ) :=
  let successful := results.filter fun r => r.success
  if successful.length = 0 then
    .ok ({ content := notFoundMessage, confidence := 0 }, 0)
  else
    match llm with
    | .error e => .error e
    | .ok c =>
      .ok ({ content := jsOrStr c "Unable to generate response"
             confidence := calculateConfidence results }, 1)

/-! ## Context finder (`context-finder.ts`) -/

/-- The fixed single-tool plan built by `registerContextFinderTool`
(Step 1). -/
def contextFinderPlan (query : String) : ToolPlanE :=
  { tools := [{ name := "database_query"
                params := .obj [("query", .str query)]
                priority := 1
                reason := "Search user private data and uploaded documents" }]
    strategy := .parallel }

/-- Whether the first character list starts the second. -/
def charsStart : List Char → List Char → Bool
  | [], _ => true
  | _ :: _, [] => false
  | a :: as, b :: bs => a = b && charsStart as bs

/-- Whether the pattern occurs somewhere in the character list. -/
def charsIncl (pat : List Char) : List Char → Bool
  | [] => charsStart pat []
  | c :: rest => charsStart pat (c :: rest) || charsIncl pat rest

/-- JavaScript `s.includes(pat)` for the non-empty literals the handler
tests: a substring check. -/
def strIncludes (s pat : String) : Bool := charsIncl pat.toList s.toList

/-- The error sanitisation of the `catch` block in
`registerContextFinderTool`: maps any caught error message to one of three
fixed user-facing messages. -/
def sanitizeError (errorString : String) : String :=
  if strIncludes errorString "429" || strIncludes errorString "rate limit" ||
     strIncludes errorString "quota" || strIncludes errorString "Request too large" ||
     strIncludes errorString "tokens per min" then
    "Our AI service is currently busy. Please try again in a few minutes."
  else if strIncludes errorString "401" || strIncludes errorString "403" ||
          strIncludes errorString "unauthorized" then
    "Something went wrong. Please try again later."
  else if strIncludes errorString "ECONNREFUSED" || strIncludes errorString "network" ||
          strIncludes errorString "timeout" then
    "Connection issue detected. Please try again later."
  else
    "Something went wrong. Please try again later."

/-! ## Shared lemmas about the confidence scorer -/

/-- A concrete sub-execution outcome, used in witnesses. -/
def subExec (b : Bool) : ToolResultE := { tool := "database_query", success := b }

/-- The cap the scorer applies for a given success count (`0` for zero
successes, where the uncapped rate is itself `0`). -/
def capOf (s : ℕ) : ℚ := if 3 ≤ s then 95 else if s = 2 then 85 else if s = 1 then 70 else 0

lemma calculateConfidence_eq_spec (results : List ToolResultE) :
    calculateConfidence results =
      confidenceSpec (results.filter fun r => r.success).length results.length := rfl

lemma confidenceSpec_eq_min (s t : ℕ) (ht : t ≠ 0) :
    confidenceSpec s t = min (capOf s) ((s : ℚ) / (t : ℚ) * 100) := by
  simp only [confidenceSpec, capOf, if_neg ht]
  split_ifs with h1 h2 h3
  · rfl
  · rfl
  · rfl
  · have hs : s = 0 := by omega
    subst hs
    simp

lemma rate_nonneg (s t : ℕ) : (0 : ℚ) ≤ (s : ℚ) / (t : ℚ) * 100 := by positivity

lemma rate_mono {s s' : ℕ} (t : ℕ) (h : s ≤ s') :
    (s : ℚ) / (t : ℚ) * 100 ≤ (s' : ℚ) / (t : ℚ) * 100 := by
  rcases Nat.eq_zero_or_pos t with ht | ht
  · subst ht; simp
  · have h0 : (0 : ℚ) < (t : ℚ) := by exact_mod_cast ht
    have hd : (s : ℚ) / (t : ℚ) ≤ (s' : ℚ) / (t : ℚ) := by
      apply div_le_div_of_nonneg_right (by exact_mod_cast h) h0.le
    exact mul_le_mul_of_nonneg_right hd (by norm_num)

lemma capOf_nonneg (s : ℕ) : (0 : ℚ) ≤ capOf s := by
  simp only [capOf]; split_ifs <;> norm_num

lemma capOf_le_95 (s : ℕ) : capOf s ≤ 95 := by
  simp only [capOf]; split_ifs <;> norm_num

lemma capOf_mono {s s' : ℕ} (h : s ≤ s') : capOf s ≤ capOf s' := by
  simp only [capOf]
  split_ifs <;> first | (exfalso; omega) | norm_num

lemma confidenceSpec_nonneg (s t : ℕ) : 0 ≤ confidenceSpec s t := by
  by_cases ht : t = 0
  · simp [confidenceSpec, ht]
  · rw [confidenceSpec_eq_min s t ht]
    exact le_min (capOf_nonneg s) (rate_nonneg s t)

lemma confidenceSpec_le_95 (s t : ℕ) : confidenceSpec s t ≤ 95 := by
  by_cases ht : t = 0
  · simp [confidenceSpec, ht]
  · rw [confidenceSpec_eq_min s t ht]
    exact (min_le_left _ _).trans (capOf_le_95 s)

lemma confidenceSpec_mono {s s' : ℕ} (t : ℕ) (h : s ≤ s') :
    confidenceSpec s t ≤ confidenceSpec s' t := by
  by_cases ht : t = 0
  · simp [confidenceSpec, ht]
  · rw [confidenceSpec_eq_min s t ht, confidenceSpec_eq_min s' t ht]
    exact le_min ((min_le_left _ _).trans (capOf_mono h))
      ((min_le_right _ _).trans (rate_mono t h))

/-! ## Claim theorems -/

/-- C1: `calculateConfidence` returns 0 when the outcome list is empty and
otherwise the piecewise value min(95, rate) / min(85, rate) / min(70, rate)
/ rate according to the success count (`confidenceSpec` states the spec's
§4.7 formula verbatim); in particular 1/1 ⇒ 70, 2/2 ⇒ 85, 3/3 ⇒ 95 and
2/4 ⇒ 50. -/
theorem calculateConfidence_piecewise :
    (∀ results : List ToolResultE,
        calculateConfidence results =
          confidenceSpec (results.filter fun r => r.success).length results.length) ∧
    calculateConfidence [subExec true] = 70 ∧
    calculateConfidence [subExec true, subExec true] = 85 ∧
    calculateConfidence [subExec true, subExec true, subExec true] = 95 ∧
    calculateConfidence [subExec true, subExec true, subExec false, subExec false] = 50 := by
  refine ⟨calculateConfidence_eq_spec, ?_, ?_, ?_, ?_⟩ <;>
    norm_num [calculateConfidence, subExec, min_def]

/-- C2: the computed confidence always lies in [0, 95], and for a fixed
total it is monotonically non-decreasing in the number of successful
sub-executions. -/
theorem calculateConfidence_bounds_monotone :
    (∀ results : List ToolResultE,
        0 ≤ calculateConfidence results ∧ calculateConfidence results ≤ 95) ∧
    (∀ results results' : List ToolResultE,
        results.length = results'.length →
        (results.filter fun r => r.success).length ≤
          (results'.filter fun r => r.success).length →
        calculateConfidence results ≤ calculateConfidence results') := by
  constructor
  · intro results
    rw [calculateConfidence_eq_spec]
    exact ⟨confidenceSpec_nonneg _ _, confidenceSpec_le_95 _ _⟩
  · intro results results' hlen hsucc
    rw [calculateConfidence_eq_spec, calculateConfidence_eq_spec, hlen]
    exact confidenceSpec_mono _ hsucc

/-- Witness for C2 at concrete inputs. -/
theorem calculateConfidence_bounds_monotone_witness :
    (0 ≤ calculateConfidence [subExec false] ∧
       calculateConfidence [subExec false] ≤ 95) ∧
    calculateConfidence [subExec false] ≤ calculateConfidence [subExec true] :=
  ⟨calculateConfidence_bounds_monotone.1 [subExec false],
   calculateConfidence_bounds_monotone.2 [subExec false] [subExec true] rfl
     (by norm_num [subExec])⟩

/-- Whether a refiner outcome returned a `RefinedResponse` (`.ok`) rather
than propagating an exception. -/
def returnsAnswer : Except String (RefinedResponse × ℕ) → Bool
  | .ok _ => true
  | .error _ => false

/-- The property C6 claims of every expander result: a JSON array of at
most two strings. -/
def isStringArrayLe2 (j : JsValue) : Prop :=
  ∃ l, j = JsValue.arr l ∧ l.length ≤ 2 ∧ ∀ x ∈ l, ∃ s, x = JsValue.str s

/-- C3: when no sub-execution succeeded, `refineResults` returns the fixed
not-found message with confidence exactly 0 and performs no LLM synthesis
call (the result is the same for every synthesis-call outcome `llm`, and
the recorded call count is 0). -/
theorem refineResults_no_success :
    ∀ (query : String) (results : List ToolResultE)
      (llm : Except String (Option String)),
      (∀ r ∈ results, r.success = false) →
      refineResults query results llm =
        .ok ({ content := notFoundMessage, confidence := 0 }, 0) := by
  intro query results llm h
  have hf : results.filter (fun r => r.success) = [] := by
    rw [List.filter_eq_nil_iff]
    intro a ha
    simp [h a ha]
  simp [refineResults, hf]

/-- Witness for C3. -/
theorem refineResults_no_success_witness :
    refineResults "q" [subExec false] (.error "boom") =
      .ok ({ content := notFoundMessage, confidence := 0 }, 0) :=
  refineResults_no_success "q" [subExec false] (.error "boom")
    (by intro r hr; rw [List.mem_singleton] at hr; subst hr; rfl)

/-- C5 counterexample: with one successful sub-execution and a synthesis
call that raises, `refineResults` does not return a `RefinedAnswer` — the
exception propagates out of the refiner. -/
theorem refineResults_error_counterexample :
    returnsAnswer (refineResults "q" [subExec true] (Except.error "boom")) = false := rfl

/-- C5 amended: a synthesis-call failure is not recovered inside the
refiner — whenever at least one sub-execution succeeded, `refineResults`
propagates the rejection unchanged; it is the surrounding `context_finder`
handler that catches it and maps any error message to one of three fixed
user-facing messages (never the raw error). -/
theorem refineResults_error_propagates :
    (∀ (query : String) (results : List ToolResultE) (e : String),
        results.filter (fun r => r.success) ≠ [] →
        refineResults query results (.error e) = .error e) ∧
    (∀ s, sanitizeError s =
            "Our AI service is currently busy. Please try again in a few minutes." ∨
          sanitizeError s = "Something went wrong. Please try again later." ∨
          sanitizeError s = "Connection issue detected. Please try again later.") := by
  constructor
  · intro query results e h
    have hlen : (results.filter fun r => r.success).length ≠ 0 := by
      simpa [List.length_eq_zero] using h
    simp [refineResults, hlen]
  · intro s
    unfold sanitizeError
    split_ifs <;> simp

/-- Witness for the amended C5. -/
theorem refineResults_error_propagates_witness :
    refineResults "q" [subExec true] (.error "fail") = .error "fail" ∧
    sanitizeError "rate limit reached" =
      "Our AI service is currently busy. Please try again in a few minutes." :=
  ⟨refineResults_error_propagates.1 "q" [subExec true] "fail"
      (by simp [subExec]), by decide⟩

/-- C6 counterexample: when the LLM response parses to a three-element JSON
array, `rephraseQuery` returns all three elements — the result is not a
list of at most two strings. -/
theorem rephraseQuery_length_counterexample :
    ¬ isStringArrayLe2
        (rephraseQuery (.ok (.arr [.str "a", .str "b", .str "c"]))) := by
  rintro ⟨l, hl, hlen, -⟩
  simp only [rephraseQuery] at hl
  injection hl with h
  subst h
  simp at hlen

/-- C6 amended: `rephraseQuery` returns the parsed JSON value unvalidated
and untruncated (the prompt merely requests two rephrasings), and on any
failure (upstream error or malformed JSON) returns the empty array rather
than raising. -/
theorem rephraseQuery_amended :
    (∀ e, rephraseQuery (.error e) = JsValue.arr []) ∧
    (∀ j, rephraseQuery (.ok j) = j) :=
  ⟨fun _ => rfl, fun _ => rfl⟩

/-- C8: whenever entity extraction yields zero entities (which includes
every extraction failure), `knowledgeGraphSearch` returns an empty result
set, entity list and pair list, and issues no store call (empty call
log) — for every possible store. -/
theorem knowledgeGraphSearch_no_entities :
    ∀ (resp : Except String JsValue) (store : KGStore) (uid : String),
      extractEntitiesFromQuery resp = .arr [] →
      knowledgeGraphSearch resp store uid = (⟨[], [], []⟩, []) := by
  intro resp store uid h
  simp [knowledgeGraphSearch, h]

/-- Witness for C8: a failed extraction against an arbitrary concrete
store. -/
theorem knowledgeGraphSearch_no_entities_witness :
    knowledgeGraphSearch (.error "boom")
      ⟨fun _ _ => .res none none, fun _ _ _ => .res none none,
       fun _ _ _ => .res none none⟩ "user" = (⟨[], [], []⟩, []) :=
  knowledgeGraphSearch_no_entities _ _ _ rfl

lemma executeTools_cons (t : ToolE) (rest : List ToolE) (strat : Strategy)
    (uid : Option String)
    (registry : String → Option (JsValue → Option String → Except String ToolResponse)) :
    ∃ r : ToolResultE,
      executeTools ⟨t :: rest, strat⟩ uid registry = .ok [r] ∧ r.tool = t.name := by
  rcases hreg : registry t.name with - | toolFn
  · exact ⟨{ tool := t.name, success := false, data := none,
             error := some ("Tool not found: " ++ t.name) },
           by simp [executeTools, hreg], rfl⟩
  · rcases hq : jsGet t.params "query" with msg | q
    · exact ⟨{ tool := t.name, success := false, data := none, error := some msg },
             by simp [executeTools, hreg, hq], rfl⟩
    · rcases hrun : toolFn (jsOr q (.str "")) uid with msg | resp
      · exact ⟨{ tool := t.name, success := false, data := none, error := some msg },
               by simp [executeTools, hreg, hq, hrun], rfl⟩
      · exact ⟨{ tool := t.name, success := resp.success, data := resp.data,
                 error := resp.error },
               by simp [executeTools, hreg, hq, hrun], rfl⟩

/-- C9: the executor runs only the first tool of the plan — the result is
unchanged by the remaining tools and the strategy — and for every plan with
at least one tool it resolves with exactly one `ToolResult` carrying the
first tool's name; a tool whose call rejects yields a single failed
`ToolResult` instead of a propagated exception. -/
theorem executeTools_first_tool_only :
    ∀ (t : ToolE) (rest : List ToolE) (strat strat' : Strategy) (uid : Option String)
      (registry : String → Option (JsValue → Option String → Except String ToolResponse)),
      executeTools ⟨t :: rest, strat⟩ uid registry =
        executeTools ⟨[t], strat'⟩ uid registry ∧
      (∃ r : ToolResultE,
         executeTools ⟨t :: rest, strat⟩ uid registry = .ok [r] ∧ r.tool = t.name) ∧
      (∀ (msg : String) (q : JsValue), jsGet t.params "query" = .ok q →
         executeTools ⟨t :: rest, strat⟩ uid (fun _ => some fun _ _ => .error msg) =
           .ok [{ tool := t.name, success := false, data := none, error := some msg }]) := by
  intro t rest strat strat' uid registry
  refine ⟨rfl, executeTools_cons t rest strat uid registry, ?_⟩
  intro msg q hq
  simp [executeTools, hq]

/-- Witness for C9: a two-tool plan whose first tool's call rejects. -/
theorem executeTools_first_tool_only_witness :
    executeTools
        ⟨[⟨"database_query", .obj [("query", .str "hi")], 1, "r"⟩,
          ⟨"web_search", .obj [("query", .str "hi")], 2, "r"⟩], .sequential⟩
        (some "user") (fun _ => some fun _ _ => .error "boom") =
      .ok [{ tool := "database_query", success := false, data := none,
             error := some "boom" }] :=
  (executeTools_first_tool_only ⟨"database_query", .obj [("query", .str "hi")], 1, "r"⟩
      [⟨"web_search", .obj [("query", .str "hi")], 2, "r"⟩] .sequential .parallel
      (some "user") (fun _ => some fun _ _ => .error "boom")).2.2 "boom" (.str "hi") rfl

lemma refineResults_ok_confidence (query : String) (results : List ToolResultE)
    (llm : Except String (Option String)) (ans : RefinedResponse × ℕ)
    (h : refineResults query results llm = .ok ans) :
    ans.1.confidence = 0 ∨
      ((results.filter fun r => r.success).length ≠ 0 ∧
        ans.1.confidence = calculateConfidence results) := by
  simp only [refineResults] at h
  split at h
  case isTrue hlen =>
    injection h with h
    left
    rw [← h]
  case isFalse hlen =>
    cases llm with
    | error e => exact Except.noConfusion h
    | ok c =>
      injection h with h
      exact Or.inr ⟨hlen, by rw [← h]⟩

lemma calculateConfidence_single_success (r : ToolResultE) (h : r.success = true) :
    calculateConfidence [r] = 70 := by
  simp [calculateConfidence, h]
  norm_num [min_def]

/-- C10: through the fixed single-tool plan of `context_finder`, the
executor yields exactly one sub-execution outcome, so every `RefinedAnswer`
the refiner returns has confidence exactly 0 or exactly 70. -/
theorem contextFinder_confidence_binary :
    ∀ (query : String) (uid : Option String)
      (registry : String → Option (JsValue → Option String → Except String ToolResponse))
      (llm : Except String (Option String))
      (results : List ToolResultE) (ans : RefinedResponse × ℕ),
      executeTools (contextFinderPlan query) uid registry = .ok results →
      refineResults query results llm = .ok ans →
      (contextFinderPlan query).tools.length = 1 ∧ results.length = 1 ∧
        (ans.1.confidence = 0 ∨ ans.1.confidence = 70) := by
  intro query uid registry llm results ans hex href
  obtain ⟨r, hr, -⟩ := executeTools_cons
    ⟨"database_query", .obj [("query", .str query)], 1,
     "Search user private data and uploaded documents"⟩ [] .parallel uid registry
  have hr' : executeTools (contextFinderPlan query) uid registry = Except.ok [r] := hr
  rw [hex] at hr'
  injection hr' with hr'
  subst hr'
  refine ⟨rfl, rfl, ?_⟩
  rcases refineResults_ok_confidence query [r] llm ans href with h0 | ⟨hne, hc⟩
  · exact Or.inl h0
  · right
    rw [hc]
    have hs : r.success = true := by
      rcases Bool.eq_false_or_eq_true r.success with ht | hf
      · exact ht
      · exact absurd (by simp [hf]) hne
    exact calculateConfidence_single_success r hs

/-- Witness for C10: an unregistered tool gives a failed sub-execution and
confidence 0. -/
theorem contextFinder_confidence_binary_witness :
    (contextFinderPlan "q").tools.length = 1 ∧
    ([({ tool := "database_query", success := false,
         error := some ("Tool not found: " ++ "database_query") } : ToolResultE)]).length = 1 ∧
    ((({ content := notFoundMessage, confidence := 0 } : RefinedResponse),
        (0 : ℕ)).1.confidence = 0 ∨
      (({ content := notFoundMessage, confidence := 0 } : RefinedResponse),
        (0 : ℕ)).1.confidence = 70) :=
  contextFinder_confidence_binary "q" (some "u") (fun _ => none) (.ok none)
    [{ tool := "database_query", success := false,
       error := some ("Tool not found: " ++ "database_query") }]
    ({ content := notFoundMessage, confidence := 0 }, 0) rfl rfl

/-- C4: on the success path, the merged evidence set is exactly the
concatenation, in fixed order, of the keyword, knowledge-graph, vector and
entity-vector result streams — for every possible output of the four
adapters, so nothing is interleaved, reordered, deduplicated or dropped. -/
theorem execute_merged_order :
    ∀ (query uid : String) (rephraseResp : Except String JsValue)
      (rephrased : List JsValue)
      (kwRpc : String → String → Rpc (List KeywordRow))
      (extractResp : Except String JsValue) (store : KGStore)
      (vec : JsValue → String → VecOutcome)
      (evec : EntityWithDocument → String → VecOutcome),
      uid ≠ "" →
      jsSpread (rephraseQuery rephraseResp) = .ok rephrased →
      ∃ d : QueryData,
        execute query (some uid) rephraseResp kwRpc extractResp store vec evec =
          { success := true, data := some d, error := none } ∧
        d.results =
          keywordSearch (kwRpc query uid) ++
          (knowledgeGraphSearch extractResp store uid).1.results ++
          vectorSearch vec uid (JsValue.str query :: rephrased) ++
          searchEntitiesInVector evec uid
            (knowledgeGraphSearch extractResp store uid).1.entitiesWithDocuments := by
  intro query uid rephraseResp rephrased kwRpc extractResp store vec evec huid hspread
  refine ⟨{ results := keywordSearch (kwRpc query uid) ++
              (knowledgeGraphSearch extractResp store uid).1.results ++
              vectorSearch vec uid (JsValue.str query :: rephrased) ++
              searchEntitiesInVector evec uid
                (knowledgeGraphSearch extractResp store uid).1.entitiesWithDocuments
            queryVariations := JsValue.str query :: rephrased
            totalResults := (keywordSearch (kwRpc query uid) ++
              (knowledgeGraphSearch extractResp store uid).1.results ++
              vectorSearch vec uid (JsValue.str query :: rephrased) ++
              searchEntitiesInVector evec uid
                (knowledgeGraphSearch extractResp store uid).1.entitiesWithDocuments).length
            sourcesKeyword := (keywordSearch (kwRpc query uid)).length
            sourcesKnowledgeGraph :=
              (knowledgeGraphSearch extractResp store uid).1.results.length
            sourcesVector := (vectorSearch vec uid (JsValue.str query :: rephrased)).length +
              (searchEntitiesInVector evec uid
                (knowledgeGraphSearch extractResp store uid).1.entitiesWithDocuments).length },
          ?_, rfl⟩
  simp only [execute, hspread]
  rw [if_neg huid]

/-- Witness for C4 with concrete non-empty keyword and vector streams. -/
theorem execute_merged_order_witness :
    ∃ d : QueryData,
      execute "q" (some "u") (.ok (.arr []))
          (fun _ _ => .res none (some [⟨"d1", some "ktext", 0, 1⟩]))
          (.error "x")
          ⟨fun _ _ => .res none none, fun _ _ _ => .res none none,
           fun _ _ _ => .res none none⟩
          (fun _ _ => .ok (some [⟨some "vtext", "d2", some (1/2), some (1/4)⟩]))
          (fun _ _ => .ok none) =
        { success := true, data := some d, error := none } ∧
      d.results =
        keywordSearch ((fun _ _ => .res none (some [⟨"d1", some "ktext", 0, 1⟩]) :
            String → String → Rpc (List KeywordRow)) "q" "u") ++
        (knowledgeGraphSearch (.error "x")
          ⟨fun _ _ => .res none none, fun _ _ _ => .res none none,
           fun _ _ _ => .res none none⟩ "u").1.results ++
        vectorSearch (fun _ _ => .ok (some [⟨some "vtext", "d2", some (1/2), some (1/4)⟩]))
          "u" [JsValue.str "q"] ++
        searchEntitiesInVector (fun _ _ => .ok none) "u"
          (knowledgeGraphSearch (.error "x")
            ⟨fun _ _ => .res none none, fun _ _ _ => .res none none,
             fun _ _ _ => .res none none⟩ "u").1.entitiesWithDocuments :=
  execute_merged_order "q" "u" (.ok (.arr [])) []
    (fun _ _ => .res none (some [⟨"d1", some "ktext", 0, 1⟩])) (.error "x")
    ⟨fun _ _ => .res none none, fun _ _ _ => .res none none,
     fun _ _ _ => .res none none⟩
    (fun _ _ => .ok (some [⟨some "vtext", "d2", some (1/2), some (1/4)⟩]))
    (fun _ _ => .ok none) (by decide) rfl

/-- C7: an expander failure yields the empty expansion list and does not
abort the pipeline — the keyword and knowledge-graph searches still run on
the original query, and the vector search runs with exactly the original
query as its single query value. -/
theorem execute_expander_failure :
    ∀ (query uid e : String)
      (kwRpc : String → String → Rpc (List KeywordRow))
      (extractResp : Except String JsValue) (store : KGStore)
      (vec : JsValue → String → VecOutcome)
      (evec : EntityWithDocument → String → VecOutcome),
      uid ≠ "" →
      rephraseQuery (.error e) = .arr [] ∧
      ∃ d : QueryData,
        execute query (some uid) (.error e) kwRpc extractResp store vec evec =
          { success := true, data := some d, error := none } ∧
        d.queryVariations = [JsValue.str query] ∧
        d.results =
          keywordSearch (kwRpc query uid) ++
          (knowledgeGraphSearch extractResp store uid).1.results ++
          vectorSearch vec uid [JsValue.str query] ++
          searchEntitiesInVector evec uid
            (knowledgeGraphSearch extractResp store uid).1.entitiesWithDocuments := by
  intro query uid e kwRpc extractResp store vec evec huid
  refine ⟨rfl,
    { results := keywordSearch (kwRpc query uid) ++
        (knowledgeGraphSearch extractResp store uid).1.results ++
        vectorSearch vec uid [JsValue.str query] ++
        searchEntitiesInVector evec uid
          (knowledgeGraphSearch extractResp store uid).1.entitiesWithDocuments
      queryVariations := [JsValue.str query]
      totalResults := (keywordSearch (kwRpc query uid) ++
        (knowledgeGraphSearch extractResp store uid).1.results ++
        vectorSearch vec uid [JsValue.str query] ++
        searchEntitiesInVector evec uid
          (knowledgeGraphSearch extractResp store uid).1.entitiesWithDocuments).length
      sourcesKeyword := (keywordSearch (kwRpc query uid)).length
      sourcesKnowledgeGraph :=
        (knowledgeGraphSearch extractResp store uid).1.results.length
      sourcesVector := (vectorSearch vec uid [JsValue.str query]).length +
        (searchEntitiesInVector evec uid
          (knowledgeGraphSearch extractResp store uid).1.entitiesWithDocuments).length },
    ?_, rfl, rfl⟩
  simp only [execute]
  rw [if_neg huid]
  rfl

/-- Witness for C7: an always-failing expander with trivial adapters. -/
theorem execute_expander_failure_witness :
    rephraseQuery (.error "llm down") = .arr [] ∧
    ∃ d : QueryData,
      execute "q" (some "u") (.error "llm down")
          (fun _ _ => .thrown "db down") (.error "llm down")
          ⟨fun _ _ => .thrown "db down", fun _ _ _ => .thrown "db down",
           fun _ _ _ => .thrown "db down"⟩
          (fun _ _ => .thrown "vec down") (fun _ _ => .thrown "vec down") =
        { success := true, data := some d, error := none } ∧
      d.queryVariations = [JsValue.str "q"] ∧
      d.results =
        keywordSearch ((fun _ _ => .thrown "db down" :
            String → String → Rpc (List KeywordRow)) "q" "u") ++
        (knowledgeGraphSearch (.error "llm down")
          ⟨fun _ _ => .thrown "db down", fun _ _ _ => .thrown "db down",
           fun _ _ _ => .thrown "db down"⟩ "u").1.results ++
        vectorSearch (fun _ _ => .thrown "vec down") "u" [JsValue.str "q"] ++
        searchEntitiesInVector (fun _ _ => .thrown "vec down") "u"
          (knowledgeGraphSearch (.error "llm down")
            ⟨fun _ _ => .thrown "db down", fun _ _ _ => .thrown "db down",
             fun _ _ _ => .thrown "db down"⟩ "u").1.entitiesWithDocuments :=
  execute_expander_failure "q" "u" "llm down" (fun _ _ => .thrown "db down")
    (.error "llm down")
    ⟨fun _ _ => .thrown "db down", fun _ _ _ => .thrown "db down",
     fun _ _ _ => .thrown "db down"⟩
    (fun _ _ => .thrown "vec down") (fun _ _ => .thrown "vec down") (by decide)

end Nexora
